import Mathlib

/-!
Verification of the MindOS completion/session/XP reconciliation engine.

This file shallowly embeds the core data model and operations of the
repository (the completion store, the session store, the XP ledger, the
daily-deduction marker, and the reconciliation engine of
`src/core/task_status.py` and the repositories under
`src/data/repositories/`) as executable Lean definitions, and proves or
refutes the specified properties about them.

Modelling conventions:
* Calendar days are integers (a day number); instants (`DateTime`) are a
  day number plus microseconds since local midnight, mirroring how the
  Python code only ever compares dates and second/microsecond offsets.
* SQLAlchemy tables become lists of records together with an
  autoincrement counter; `query(...).first()` becomes `List.find?` (or a
  fold selecting the row with maximal `start_time` where the source
  orders by `start_time` descending).
* Wall-clock reads (`datetime.now()`, `date.today()`) become explicit
  `now`/`today` parameters.
* Fallible writes that the source wraps in try/except are total here;
  the one constructor call that always raises (`mark_undone` passing the
  removed `completion_date` column) is modelled as returning `none`,
  exactly as `BaseRepository.create` converts the raised `TypeError`
  into `None`.
-/

namespace MindOS

/-- Microseconds in one calendar day. -/
def usecPerDay : Int := 86400000000

/-- An instant: a calendar day number plus microseconds since local
midnight.  Mirrors the naive local `datetime` values the source stores
(representation invariant, maintained by every constructor in this
file: `0 ≤ usec < usecPerDay`). -/
structure DateTime where
  day : Int
  usec : Int
deriving DecidableEq

/-- Python `datetime.date()`: the calendar-day component. -/
def DateTime.toDate (t : DateTime) : Int := t.day

/-- Total microseconds, for comparing instants. -/
def DateTime.totalUsec (t : DateTime) : Int := t.day * usecPerDay + t.usec

/-- Python `int((now - start).total_seconds())`: whole seconds between
two instants, truncated toward zero (`Int.tdiv` matches Python `int()`
truncation; the two agree with floor division whenever `start ≤ now`). -/
def elapsedSeconds (now start : DateTime) : Int :=
  Int.tdiv (now.totalUsec - start.totalUsec) 1000000

/-- Python truthiness pattern `duration = base; if extra: duration += extra`
used by `pause_session`, `get_current_duration` and friends: `None` and
`0` both contribute nothing. -/
def addTruthy (base : Int) (extra : Option Int) : Int :=
  match extra with
  | some d => if d == 0 then base else base + d
  | none => base

/-! ### Event-id normalization (`src/core/task_status.py`, `extract_base_event_id`) -/

/-- Python `s.rsplit(sep, 1)`: split at the last occurrence of `c`,
returning `none` when `c` does not occur. -/
def rsplitOnce (c : Char) : List Char → Option (List Char × List Char)
  | [] => none
  | x :: xs =>
    match rsplitOnce c xs with
    | some (a, b) => some (x :: a, b)
    | none => if x == c then some ([], xs) else none

/-- The suffix guard of `extract_base_event_id`: the split-off part
contains the letter T and ends in the letter Z. -/
def timestampSuffixParts (suffix : List Char) : Bool :=
  suffix.contains 'T' && suffix.getLast? == some 'Z'

/-- `extract_base_event_id`: strip a trailing `_<...T...Z>` suffix when
present.  The source first tests that an underscore occurs (its two
membership-and-count conditions are equivalent to that), and the
two-parts length check always holds once `rsplit` finds an underscore. -/
def extract_base_event_id (s : String) : String :=
  match rsplitOnce '_' s.data with
  | some (base, suffix) => if timestampSuffixParts suffix then String.mk base else s
  | none => s

/-- Whether `extract_base_event_id` would strip a suffix from `s`. -/
def hasTimestampSuffix (s : String) : Bool :=
  match rsplitOnce '_' s.data with
  | some (_, suffix) => timestampSuffixParts suffix
  | none => false

theorem extract_of_not_hasTimestampSuffix (s : String)
    (h : hasTimestampSuffix s = false) : extract_base_event_id s = s := by
  unfold hasTimestampSuffix at h
  unfold extract_base_event_id
  cases hsplit : rsplitOnce '_' s.data with
  | none => rfl
  | some p =>
    obtain ⟨a, b⟩ := p
    rw [hsplit] at h
    have h' : timestampSuffixParts b = false := by simpa using h
    simp [h']

/-! ### Completion store (`src/data/repositories/event_completion_repository.py`,
model `EventCompletion` in `src/data/db.py`) -/

/-- A row of `event_completions` (audit timestamps omitted: no claim
mentions them). -/
structure EventCompletion where
  id : Nat
  event_id : String
  is_done : Bool
  completed_at : Option DateTime
  completion_description : Option String
deriving DecidableEq

/-- The `event_completions` table: rows plus the autoincrement counter. -/
structure CompletionStore where
  nextId : Nat
  rows : List EventCompletion
deriving DecidableEq

def CompletionStore.empty : CompletionStore := ⟨1, []⟩

/-- The row predicate of `get_by_event_id`: same event id, `is_done`,
and `DATE(completed_at)` equal to the given day (SQL `DATE(NULL) = d`
is not true). -/
def completionMatches (eid : String) (d : Int) (c : EventCompletion) : Bool :=
  c.event_id == eid &&
    (match c.completed_at with
     | some t => t.toDate == d
     | none => false) &&
  c.is_done

/-- `EventCompletionRepository.get_by_event_id_and_date` (via
`get_by_event_id`): first row matching event id, date and `is_done`. -/
def getByEventIdAndDate (store : CompletionStore) (eid : String) (d : Int) :
    Option EventCompletion :=
  store.rows.find? (completionMatches eid d)

/-- `EventCompletionRepository.is_done`. -/
def isDone (eid : String) (d : Int) (store : CompletionStore) : Bool :=
  match getByEventIdAndDate store eid d with
  | some c => c.is_done
  | none => false

/-- `EventCompletionRepository.mark_done`: upsert the `(event_id, day)`
completion; `completed_at` defaults to midnight of the completion day. -/
def markDone (eid : String) (description : Option String) (d : Int)
    (completedAtDatetime : Option DateTime) (store : CompletionStore) :
    Option EventCompletion × CompletionStore :=
  let completed_at : DateTime :=
    match completedAtDatetime with
    | some t => t
    | none => ⟨d, 0⟩
  match getByEventIdAndDate store eid d with
  | some c =>
    let c' : EventCompletion :=
      { c with is_done := true, completed_at := some completed_at,
               completion_description := description }
    (some c', { store with rows := store.rows.map (fun r => if r.id == c.id then c' else r) })
  | none =>
    let c : EventCompletion := ⟨store.nextId, eid, true, some completed_at, description⟩
    (some c, ⟨store.nextId + 1, store.rows ++ [c]⟩)

/-- The no-record branch of `EventCompletionRepository.mark_undone` calls
`self.create(event_id=..., completion_date=completion_date, is_done=False)`,
but the `EventCompletion` model in `src/data/db.py` has no
`completion_date` column (the migration in `init_db` removed it in favour
of `completed_at`), so the `EventCompletion(**kwargs)` constructor raises
`TypeError`, which `BaseRepository.create` catches (rolling back) and
converts to `None`.  The store is left unchanged. -/
def createUndoneWithStaleKwarg : Option EventCompletion := none

/-- `EventCompletionRepository.mark_undone`: clear the `(event_id, day)`
completion when it exists; otherwise attempt to create an undone record
(which always fails, see `createUndoneWithStaleKwarg`). -/
def markUndone (eid : String) (d : Int) (store : CompletionStore) :
    Option EventCompletion × CompletionStore :=
  match getByEventIdAndDate store eid d with
  | some c =>
    let c' : EventCompletion := { c with is_done := false, completed_at := none }
    (some c', { store with rows := store.rows.map (fun r => if r.id == c.id then c' else r) })
  | none => (createUndoneWithStaleKwarg, store)

/-- `EventCompletionRepository.get_completion_status_batch`, restricted
to a single id: the dict entry the batch query produces for `eid` (the
dict is built row by row, so the last matching row wins), defaulting to
`(False, None, None)`. -/
def completionStatusOf (store : CompletionStore) (d : Int) (eid : String) :
    Bool × Option DateTime × Option String :=
  match (store.rows.filter (completionMatches eid d)).getLast? with
  | some c => (c.is_done, c.completed_at, c.completion_description)
  | none => (false, none, none)

/-! ### XP ledger (`src/data/repositories/xp_repository.py`) -/

/-- A row of `xp_transactions`. -/
structure XPTransaction where
  points : Int
  event_id : Option String
  description : String
  total_xp_after : Int
  created_at : DateTime
deriving DecidableEq

/-- The singleton `user_xp` total plus the `xp_transactions` ledger. -/
structure XPState where
  total_xp : Int
  transactions : List XPTransaction
deriving DecidableEq

/-- Python `description or default`: the empty string is falsy. -/
def descriptionOr (description : Option String) (default : String) : String :=
  match description with
  | some dsc => if dsc == "" then default else dsc
  | none => default

/-- `XPRepository.add_xp`: increment the total and append a transaction;
the transaction timestamp is `transaction_created_at` when provided,
otherwise `datetime.now()`. -/
def addXp (now : DateTime) (points : Int) (event_id : Option String)
    (description : Option String) (transaction_created_at : Option DateTime)
    (st : XPState) : Bool × XPState :=
  let total_after := st.total_xp + points
  let tx : XPTransaction :=
    ⟨points, event_id,
     descriptionOr description ("Task completed (+" ++ toString points ++ " XP)"),
     total_after,
     match transaction_created_at with
     | some t => t
     | none => now⟩
  (true, ⟨total_after, st.transactions ++ [tx]⟩)

/-- `XPRepository.deduct_xp`: decrement the total (may go negative) and
append a transaction with negated points, timestamped `datetime.now()`. -/
def deductXp (now : DateTime) (points : Int) (event_id : Option String)
    (description : Option String) (st : XPState) : Bool × XPState :=
  let total_after := st.total_xp - points
  let tx : XPTransaction :=
    ⟨-points, event_id,
     descriptionOr description ("Task undone (-" ++ toString points ++ " XP)"),
     total_after, now⟩
  (true, ⟨total_after, st.transactions ++ [tx]⟩)

def XP_PER_LEVEL : Int := 100

/-- The result record of `XPRepository.get_xp_info`. -/
structure XPInfo where
  total_xp : Int
  level : Int
  current_level_xp : Int
  xp_for_next_level : Int
deriving DecidableEq

/-- `XPRepository.get_xp_info` (the implementation the core exposes via
`XPCore.get_xp_info`): level 0 below zero with `abs(total_xp)` as
progress, otherwise `total_xp // 100 + 1` and `total_xp % 100`. -/
def getXpInfo (st : XPState) : XPInfo :=
  let total_xp := st.total_xp
  if total_xp < 0 then
    ⟨total_xp, 0, |total_xp|, |total_xp|⟩
  else
    ⟨total_xp, total_xp / XP_PER_LEVEL + 1, total_xp % XP_PER_LEVEL,
     XP_PER_LEVEL - total_xp % XP_PER_LEVEL⟩

/-! ### Session store (`src/data/repositories/task_session_repository.py`,
model `TaskSession` in `src/data/db.py`) -/

/-- A row of `task_sessions` (audit timestamps omitted). -/
structure TaskSession where
  id : Nat
  event_id : String
  start_time : DateTime
  end_time : Option DateTime
  duration_seconds : Option Int
  status : String
deriving DecidableEq

/-- The `task_sessions` table: rows plus the autoincrement counter. -/
structure SessionStore where
  nextId : Nat
  rows : List TaskSession
deriving DecidableEq

def SessionStore.empty : SessionStore := ⟨1, []⟩

/-- Selector for `order_by(start_time.desc()).first()`: keep the row
with the larger `start_time` (the earlier row on ties). -/
def pickMaxStart (acc : Option TaskSession) (t : TaskSession) : Option TaskSession :=
  match acc with
  | none => some t
  | some b => if b.start_time.totalUsec < t.start_time.totalUsec then some t else some b

/-- `TaskSessionRepository.get_running_session` (also surfaced to the
core as `TaskSessionCore.get_active_session`): the running session for
the event with the latest `start_time`. -/
def getRunningSession (store : SessionStore) (eid : String) : Option TaskSession :=
  (store.rows.filter (fun t => t.event_id == eid && t.status == "running")).foldl
    pickMaxStart none

/-- `TaskSessionRepository.start_session`: freeze any running session
(`duration_seconds = now - start_time`, overwriting the field;
`end_time = now`; status `Paused`), then create a fresh running session
with `start_time = now` and no accumulated duration. -/
def startSession (now : DateTime) (eid : String) (store : SessionStore) :
    Option TaskSession × SessionStore :=
  let store1 : SessionStore :=
    match getRunningSession store eid with
    | some existing =>
      let duration := elapsedSeconds now existing.start_time
      let e' : TaskSession :=
        { existing with duration_seconds := some duration, end_time := some now,
                        status := "Paused" }
      { store with rows := store.rows.map (fun r => if r.id == existing.id then e' else r) }
    | none => store
  let s : TaskSession := ⟨store1.nextId, eid, now, none, none, "running"⟩
  (some s, ⟨store1.nextId + 1, store1.rows ++ [s]⟩)

/-- `TaskSessionRepository.pause_session` (surfaced as
`TaskSessionCore.pause_session`): freeze the running session, adding any
truthy accumulated `duration_seconds`; `False` when no running session
exists. -/
def pauseSession (now : DateTime) (eid : String) (store : SessionStore) :
    Bool × SessionStore :=
  match getRunningSession store eid with
  | some s =>
    let duration := addTruthy (elapsedSeconds now s.start_time) s.duration_seconds
    let s' : TaskSession :=
      { s with duration_seconds := some duration, end_time := some now,
               status := "Paused" }
    (true, { store with rows := store.rows.map (fun r => if r.id == s.id then s' else r) })
  | none => (false, store)

/-- `TaskSessionRepository.get_current_duration`: note the lookup is
`get_running_session`, so only rows with status `running` can be
returned; the `Paused` branch below mirrors the source but is dead. -/
def getCurrentDuration (now : DateTime) (store : SessionStore) (eid : String) :
    Option Int :=
  match getRunningSession store eid with
  | none => none
  | some s =>
    if s.status == "running" then
      some (addTruthy (elapsedSeconds now s.start_time) s.duration_seconds)
    else if s.status == "Paused" then
      match s.duration_seconds with
      | some d => if d == 0 then none else some d
      | none => none
    else none

/-! ### Deduction marker (`src/data/repositories/daily_xp_deduction_repository.py`) -/

/-- A row of `daily_xp_deduction`. -/
structure DeductionMarker where
  last_run_date : DateTime
  pending_count : Nat
  deducted_count : Nat
  total_xp_deducted : Int
deriving DecidableEq

/-- The `daily_xp_deduction` table. -/
structure MarkerStore where
  rows : List DeductionMarker
deriving DecidableEq

/-- Selector for `order_by(last_run_date.desc()).first()`. -/
def pickMaxRun (acc : Option DeductionMarker) (m : DeductionMarker) :
    Option DeductionMarker :=
  match acc with
  | none => some m
  | some b => if b.last_run_date.totalUsec < m.last_run_date.totalUsec then some m else some b

/-- `DailyXPDeductionRepository.get_last_run_date`: the date of the
latest marker. -/
def MarkerStore.lastRunDate (st : MarkerStore) : Option Int :=
  (st.rows.foldl pickMaxRun none).map (fun m => m.last_run_date.day)

/-- `DailyXPDeductionRepository.record_deduction_run`: insert a marker
dated midnight of today. -/
def recordDeductionRun (today : Int) (pending_count : Nat) (deducted_count : Nat)
    (total_xp_deducted : Int) (st : MarkerStore) : MarkerStore :=
  ⟨st.rows ++ [⟨⟨today, 0⟩, pending_count, deducted_count, total_xp_deducted⟩]⟩

/-! ### Core interactive operations (`src/core/task_status.py`, `TaskStatusCore`) -/

/-- Python `s.strip()`: remove leading and trailing whitespace, modelled
on the underlying character list. -/
def pyStrip (s : String) : String :=
  String.mk (((s.data.dropWhile Char.isWhitespace).reverse.dropWhile
    Char.isWhitespace).reverse)

def XP_PER_TASK : Int := 5

/-- `TaskStatusCore.mark_event_done`: reject an empty or whitespace-only
description with a `ValueError` before touching any store; otherwise
upsert the completion and award the per-task XP only when the task was
not already done on that date.  The error branch returns the stores
untouched (the `raise` happens before the `try` block, so it propagates
to the caller and nothing is written). -/
def markEventDone (now : DateTime) (event_id : String) (description : String)
    (completion_date : Int) (cs : CompletionStore) (xs : XPState) :
    Except String Bool × CompletionStore × XPState :=
  if pyStrip description == "" then
    (Except.error "Description is required when marking a task as done", cs, xs)
  else
    let was_already_done := isDone event_id completion_date cs
    let mres := markDone event_id (some (pyStrip description)) completion_date none cs
    match mres.1 with
    | none => (Except.ok false, mres.2, xs)
    | some _ =>
      if was_already_done then (Except.ok true, mres.2, xs)
      else
        let ares := addXp now XP_PER_TASK (some event_id)
          (some ("Task completed: " ++ event_id)) none xs
        (Except.ok true, mres.2, ares.2)

/-- `TaskStatusCore.mark_event_undone`: clear the completion and deduct
the per-task XP; when `mark_undone` yields nothing, return `False`
without touching the ledger. -/
def markEventUndone (now : DateTime) (event_id : String) (completion_date : Int)
    (cs : CompletionStore) (xs : XPState) : Bool × CompletionStore × XPState :=
  let ures := markUndone event_id completion_date cs
  match ures.1 with
  | none => (false, ures.2, xs)
  | some _ =>
    let dres := deductXp now XP_PER_TASK (some event_id)
      (some ("Task undone: " ++ event_id)) xs
    (true, ures.2, dres.2)

/-! ### Reconciliation engine
(`TaskStatusCore.deduct_xp_for_pending_tasks_from_yesterday`) -/

/-- The four stores the reconciliation pass touches. -/
structure ReconState where
  completions : CompletionStore
  sessions : SessionStore
  xp : XPState
  markers : MarkerStore
deriving DecidableEq

/-- The dict returned by the pass.  The three `Option` fields are keys
present only in the full-success dict, absent from the early-return and
failure dicts. -/
structure ReconResult where
  success : Bool
  pending_count : Nat
  deducted_count : Nat
  total_xp_deducted : Int
  running_stopped_count : Option Nat
  running_xp_awarded : Option Int
  days_processed : Option Int
  message : String
deriving DecidableEq

/-- The per-day counters collected into `days_processed`
(`days_breakdown` in the returned dict). -/
structure DayStats where
  pending : Nat
  running_stopped : Nat
  running_xp_awarded : Int
  deducted : Nat
  xp : Int
deriving DecidableEq

/-- Python `seen`-set deduplication of base ids, keeping first
occurrences in order. -/
def dedupKeepFirst (l : List String) : List String :=
  l.foldl (fun acc x => if acc.contains x then acc else acc ++ [x]) []

/-- The `should_deduct` classification of one base id from its batch
completion-status tuple: not done; or done with a completion instant on
a different date; or done with no completion instant at all. -/
def shouldDeduct (statusTuple : Bool × Option DateTime × Option String)
    (checkDate : Int) : Bool :=
  let is_done := statusTuple.1
  let completed_at := statusTuple.2.1
  if !is_done then true
  else
    match completed_at with
    | some ca => !(ca.toDate == checkDate)
    | none => is_done

/-- The classification loop of the pass: split the base ids for
`check_date` into `pending_base_ids` and `running_tasks_to_complete`.
A base id goes to `running_tasks_to_complete` exactly when it should be
deducted and has an active running session whose `start_time` falls on
`check_date`; every other to-deduct id is pending. -/
def classifyDay (checkDate : Int) (st : ReconState) (baseIds : List String) :
    List String × List String :=
  baseIds.foldl
    (fun (acc : List String × List String) baseId =>
      if shouldDeduct (completionStatusOf st.completions checkDate baseId) checkDate then
        match getRunningSession st.sessions baseId with
        | some s =>
          if s.status == "running" then
            if s.start_time.toDate == checkDate then (acc.1, acc.2 ++ [baseId])
            else (acc.1 ++ [baseId], acc.2)
          else (acc.1 ++ [baseId], acc.2)
        | none => (acc.1 ++ [baseId], acc.2)
      else acc)
    ([], [])

/-- One iteration of the `running_tasks_to_complete` loop: record
whether the task was already done, build the auto-completion instant
`datetime.combine(check_date, datetime.max.time()).replace(microsecond=0)
- timedelta(seconds=1)` (max time is `86399999999` microseconds into the
day; zeroing microseconds gives `86399000000`; subtracting one second
gives `86398000000`, i.e. 23:59:58), pause the session, and on success
mark the task done with the system description, awarding XP for a first
completion.  Returns the new state, the `running_completed_count`
increment, the `running_xp_awarded` increment, and the ids appended to
`pending_base_ids` by the `except` branch (empty here: the embedded
operations are total, so the exception path cannot fire). -/
def handleRunningTask (now : DateTime) (checkDate : Int) (baseId : String)
    (st : ReconState) : ReconState × Nat × Int × List String :=
  let completed_at_datetime : DateTime :=
    ⟨checkDate, Int.tdiv 86399999999 1000000 * 1000000 - 1000000⟩
  let was_already_done := isDone baseId checkDate st.completions
  let pres := pauseSession now baseId st.sessions
  if pres.1 then
    let mres := markDone baseId (some "Stopped by system (forgot to stop timer)")
      checkDate (some completed_at_datetime) st.completions
    match mres.1 with
    | some _ =>
      if was_already_done then
        ({ st with sessions := pres.2, completions := mres.2 }, 1, 0, [])
      else
        let ares := addXp now XP_PER_TASK (some baseId)
          (some ("Task completed: " ++ baseId)) none st.xp
        ({ st with sessions := pres.2, completions := mres.2, xp := ares.2 },
         1, XP_PER_TASK, [])
    | none => ({ st with sessions := pres.2, completions := mres.2 }, 0, 0, [])
  else
    ({ st with sessions := pres.2 }, 0, 0, [])

/-- Process one `check_date` (the body of the day loop, after the
calendar fetch): normalize and deduplicate the raw event ids, classify,
auto-finalize the running tasks, then deduct XP for each pending id. -/
def processDay (now : DateTime) (checkDate : Int) (eventIds : List String)
    (st : ReconState) : ReconState × DayStats :=
  let baseIds := dedupKeepFirst (eventIds.map extract_base_event_id)
  let classified := classifyDay checkDate st baseIds
  let finalized :=
    classified.2.foldl
      (fun (acc : ReconState × Nat × Int × List String) baseId =>
        let r := handleRunningTask now checkDate baseId acc.1
        (r.1, acc.2.1 + r.2.1, acc.2.2.1 + r.2.2.1, acc.2.2.2 ++ r.2.2.2))
      (st, 0, 0, [])
  let pending := classified.1 ++ finalized.2.2.2
  let deducted :=
    pending.foldl
      (fun (acc : ReconState × Nat × Int) baseId =>
        let dres := deductXp now XP_PER_TASK (some baseId)
          (some ("Task from " ++ toString checkDate ++ " not completed: " ++ baseId))
          acc.1.xp
        if dres.1 then ({ acc.1 with xp := dres.2 }, acc.2.1 + 1, acc.2.2 + XP_PER_TASK)
        else (acc.1, acc.2.1, acc.2.2))
      (finalized.1, 0, 0)
  (deducted.1,
   ⟨pending.length, finalized.2.1, finalized.2.2.1, deducted.2.1, deducted.2.2⟩)

/-- The success-path summary message of the pass. -/
def reconMessage (days_since : Int) (total_deducted_count : Nat)
    (total_xp_deducted : Int) (total_running_stopped : Nat)
    (total_running_xp_awarded : Int) : String :=
  let running_info :=
    if 0 < total_running_xp_awarded then
      " Stopped " ++ toString total_running_stopped ++
        " running task(s) and awarded " ++ toString total_running_xp_awarded ++ " XP."
    else ""
  let fromPart :=
    if days_since == 1 then "yesterday" else "the last " ++ toString days_since ++ " days"
  if total_deducted_count == 0 then
    "No pending tasks from " ++ fromPart ++ "." ++ running_info
  else
    "Deducted " ++ toString total_xp_deducted ++ " XP for " ++
      toString total_deducted_count ++ " pending task(s) from " ++ fromPart ++ "." ++
      running_info

/-- The day-walk and marker write of the pass, given the clamped
`days_since`.  `events d` is the calendar collaborator for day `d`:
`none` models the per-day fetch raising (logged, `continue`), and an
empty list hits `if not events: continue`; both skip the day before any
mutation. -/
def reconLoop (now : DateTime) (today : Int) (days_since : Int)
    (events : Int → Option (List String)) (st : ReconState) :
    ReconResult × ReconState :=
  let offsets := (List.range days_since.toNat).map (fun i => (i : Int) + 1)
  let walked :=
    offsets.foldl
      (fun (acc : ReconState × Nat × Nat × Int × Int × List DayStats) offset =>
        let checkDate := today - offset
        match events checkDate with
        | none => acc
        | some evs =>
          if evs.isEmpty then acc
          else
            let r := processDay now checkDate evs acc.1
            (r.1,
             acc.2.1 + r.2.pending + r.2.running_stopped,
             acc.2.2.1 + r.2.deducted,
             acc.2.2.2.1 + r.2.xp,
             acc.2.2.2.2.1 + r.2.running_xp_awarded,
             acc.2.2.2.2.2 ++ [r.2]))
      (st, 0, 0, 0, 0, [])
  let st' := walked.1
  let total_pending_count := walked.2.1
  let total_deducted_count := walked.2.2.1
  let total_xp_deducted := walked.2.2.2.1
  let total_running_xp_awarded := walked.2.2.2.2.1
  let days_breakdown := walked.2.2.2.2.2
  let total_running_stopped := days_breakdown.foldl (fun a d => a + d.running_stopped) 0
  let markers' := recordDeductionRun today total_pending_count total_deducted_count
    total_xp_deducted st'.markers
  ({ success := true,
     pending_count := total_pending_count,
     deducted_count := total_deducted_count,
     total_xp_deducted := total_xp_deducted,
     running_stopped_count := some total_running_stopped,
     running_xp_awarded := some total_running_xp_awarded,
     days_processed := some days_since,
     message := reconMessage days_since total_deducted_count total_xp_deducted
       total_running_stopped total_running_xp_awarded },
   { st' with markers := markers' })

/-- `TaskStatusCore.deduct_xp_for_pending_tasks_from_yesterday`: gate on
the last marker date (`days_since == 0` returns the zero-count success
early; negative deltas are clamped to 1; no marker means 1), then on
calendar authentication, then walk the missed days and write one marker. -/
def deductXpForPendingTasksFromYesterday (now : DateTime) (today : Int)
    (calendarAuthenticated : Bool) (events : Int → Option (List String))
    (st : ReconState) : ReconResult × ReconState :=
  let afterGate (days_since : Int) : ReconResult × ReconState :=
    if !calendarAuthenticated then
      ({ success := false, pending_count := 0, deducted_count := 0,
         total_xp_deducted := 0, running_stopped_count := none,
         running_xp_awarded := none, days_processed := none,
         message := "Calendar service not authenticated" }, st)
    else reconLoop now today days_since events st
  match st.markers.lastRunDate with
  | some lr =>
    let days_since := today - lr
    if days_since = 0 then
      ({ success := true, pending_count := 0, deducted_count := 0,
         total_xp_deducted := 0, running_stopped_count := none,
         running_xp_awarded := none, days_processed := none,
         message := "Deduction already ran today" }, st)
    else afterGate (if days_since < 0 then 1 else days_since)
  | none => afterGate 1

/-! ### Helper lemmas -/

theorem foldl_pickMaxStart_mem (l : List TaskSession) (acc : Option TaskSession)
    (t : TaskSession) (h : l.foldl pickMaxStart acc = some t) : t ∈ l ∨ acc = some t := by
  induction l generalizing acc with
  | nil => exact Or.inr h
  | cons x xs ih =>
    rcases ih (pickMaxStart acc x) h with hmem | hacc
    · exact Or.inl (List.mem_cons_of_mem x hmem)
    · unfold pickMaxStart at hacc
      cases acc with
      | none =>
        dsimp only at hacc
        injection hacc with h1
        exact Or.inl (h1 ▸ List.mem_cons_self x xs)
      | some b =>
        dsimp only at hacc
        by_cases hlt : b.start_time.totalUsec < x.start_time.totalUsec
        · rw [if_pos hlt] at hacc
          injection hacc with h1
          exact Or.inl (h1 ▸ List.mem_cons_self x xs)
        · rw [if_neg hlt] at hacc
          exact Or.inr hacc

theorem getRunningSession_some (store : SessionStore) (eid : String) (s : TaskSession)
    (h : getRunningSession store eid = some s) :
    s ∈ store.rows ∧ s.event_id = eid ∧ s.status = "running" := by
  unfold getRunningSession at h
  rcases foldl_pickMaxStart_mem _ _ _ h with hmem | hacc
  · have hf := List.mem_filter.mp hmem
    have hp := hf.2
    simp only [Bool.and_eq_true] at hp
    exact ⟨hf.1, eq_of_beq hp.1, eq_of_beq hp.2⟩
  · simp at hacc

theorem pauseSession_false (now : DateTime) (eid : String) (store : SessionStore)
    (h : (pauseSession now eid store).1 = false) :
    (pauseSession now eid store).2 = store := by
  unfold pauseSession at h ⊢
  revert h
  cases getRunningSession store eid with
  | none => intro _; rfl
  | some s => intro h; simp at h

theorem getByEventIdAndDate_some (store : CompletionStore) (eid : String) (d : Int)
    (c : EventCompletion) (h : getByEventIdAndDate store eid d = some c) :
    c ∈ store.rows ∧ c.event_id = eid ∧ c.is_done = true := by
  have hmem := List.mem_of_find?_eq_some h
  have hp := List.find?_some h
  unfold completionMatches at hp
  simp only [Bool.and_eq_true] at hp
  exact ⟨hmem, eq_of_beq hp.1.1, hp.2⟩

theorem markDone_spec (eid : String) (description : Option String) (d : Int)
    (ca : Option DateTime) (store : CompletionStore) :
    ∃ c, (markDone eid description d ca store).1 = some c ∧
      c.event_id = eid ∧ c.is_done = true ∧
      c.completed_at = some (match ca with | some t => t | none => ⟨d, 0⟩) ∧
      c.completion_description = description := by
  unfold markDone
  cases hfind : getByEventIdAndDate store eid d with
  | none => exact ⟨_, rfl, rfl, rfl, rfl, rfl⟩
  | some c =>
    exact ⟨_, rfl, (getByEventIdAndDate_some store eid d c hfind).2.1, rfl, rfl, rfl⟩

theorem isDone_iff (eid : String) (d : Int) (store : CompletionStore) :
    isDone eid d store = true ↔ ∃ c ∈ store.rows, completionMatches eid d c = true := by
  unfold isDone getByEventIdAndDate
  cases hf : store.rows.find? (completionMatches eid d) with
  | none =>
    dsimp only
    constructor
    · intro h; simp at h
    · rintro ⟨c, hc, hpc⟩
      exact absurd hpc (by simpa using List.find?_eq_none.mp hf c hc)
  | some c =>
    dsimp only
    have hpc := List.find?_some hf
    constructor
    · intro _; exact ⟨c, List.mem_of_find?_eq_some hf, hpc⟩
    · intro _
      unfold completionMatches at hpc
      simp only [Bool.and_eq_true] at hpc
      exact hpc.2

theorem isDone_markDone (eid : String) (description : Option String) (d : Int)
    (cs : CompletionStore) :
    isDone eid d (markDone eid description d none cs).2 = true := by
  rw [isDone_iff]
  unfold markDone
  cases hfind : getByEventIdAndDate cs eid d with
  | none =>
    refine ⟨⟨cs.nextId, eid, true, some ⟨d, 0⟩, description⟩, ?_, ?_⟩
    · simp
    · simp [completionMatches, DateTime.toDate]
  | some c =>
    have hc := getByEventIdAndDate_some cs eid d c hfind
    refine ⟨{ c with is_done := true, completed_at := some ⟨d, 0⟩, completion_description := description }, ?_, ?_⟩
    · dsimp only
      exact List.mem_map.mpr ⟨c, hc.1, by simp⟩
    · simp [completionMatches, hc.2.1, DateTime.toDate]

theorem append_ne_empty (s t : String) (h : s ≠ "") : s ++ t ≠ "" := by
  intro he
  apply h
  have hd : s.data ++ t.data = [] := congrArg String.data he
  have hs : s.data = [] := (List.append_eq_nil.mp hd).1
  cases s
  simp_all

theorem descriptionOr_of_ne (dsc dflt : String) (h : dsc ≠ "") :
    descriptionOr (some dsc) dflt = dsc := by
  unfold descriptionOr
  dsimp only
  rw [beq_eq_false_iff_ne.mpr h]
  simp

/-! ### Claim theorems -/

/-- Claim C5, counterexample: event-id normalization is not idempotent.
Normalizing `proj_2024-05-01T10:00:00Z_2024-05-02T10:00:00Z` strips one
suffix and yields `proj_2024-05-01T10:00:00Z`, which itself still ends
in a `_<...T...Z>` segment, so a second normalization strips again and
yields `proj`. -/
theorem normalize_not_idempotent_counterexample :
    extract_base_event_id
        (extract_base_event_id "proj_2024-05-01T10:00:00Z_2024-05-02T10:00:00Z") ≠
      extract_base_event_id "proj_2024-05-01T10:00:00Z_2024-05-02T10:00:00Z" := by
  decide

/-- Claim C5, amended: normalization is idempotent for every id whose
normalized form does not itself end in a `_<...T...Z>` timestamp-like
segment (`rsplit` at the last underscore leaves a part containing `T`
and ending in `Z`); the three concrete examples hold as stated. -/
theorem normalize_idempotent_amended (s : String)
    (h : hasTimestampSuffix (extract_base_event_id s) = false) :
    extract_base_event_id (extract_base_event_id s) = extract_base_event_id s ∧
    extract_base_event_id "base_2024-05-01T10:00:00Z" = "base" ∧
    extract_base_event_id "base" = "base" ∧
    extract_base_event_id "weird_suffix" = "weird_suffix" :=
  ⟨extract_of_not_hasTimestampSuffix _ h, by decide, by decide, by decide⟩

theorem normalize_idempotent_amended_witness :
    hasTimestampSuffix (extract_base_event_id "base_2024-05-01T10:00:00Z") = false ∧
    extract_base_event_id (extract_base_event_id "base_2024-05-01T10:00:00Z") =
      extract_base_event_id "base_2024-05-01T10:00:00Z" :=
  ⟨by decide, (normalize_idempotent_amended "base_2024-05-01T10:00:00Z" (by decide)).1⟩

/-- Claim C6: `get_xp_info` derives level and progress from `total_xp`:
for `total_xp ≥ 0`, `level = total_xp div 100 + 1` and
`xp_in_level = total_xp mod 100` (so 250 gives level 3, 50 in-level, 50
to next); for `total_xp < 0`, level 0 with the absolute value as the
reported progress (so -150 gives level 0). -/
theorem get_xp_info_levels (st : XPState) :
    (0 ≤ st.total_xp →
      getXpInfo st =
        ⟨st.total_xp, st.total_xp / 100 + 1, st.total_xp % 100, 100 - st.total_xp % 100⟩) ∧
    (st.total_xp < 0 → getXpInfo st = ⟨st.total_xp, 0, |st.total_xp|, |st.total_xp|⟩) ∧
    getXpInfo ⟨250, []⟩ = ⟨250, 3, 50, 50⟩ ∧
    (getXpInfo ⟨-150, []⟩).level = 0 ∧ (getXpInfo ⟨-150, []⟩).current_level_xp = 150 := by
  refine ⟨?_, ?_, by decide, by decide, by decide⟩
  · intro h
    unfold getXpInfo XP_PER_LEVEL
    rw [if_neg (not_lt.mpr h)]
  · intro h
    unfold getXpInfo
    rw [if_pos h]

theorem get_xp_info_levels_witness :
    (0 : Int) ≤ (250 : Int) ∧
    getXpInfo ⟨250, []⟩ = ⟨250, 250 / 100 + 1, 250 % 100, 100 - 250 % 100⟩ :=
  ⟨by norm_num, (get_xp_info_levels ⟨250, []⟩).1 (by norm_num)⟩

/-- Claim C8: with no completion record for the (task, day), `mark_undone`
does not report success.  Its create-an-undone-record branch passes the
removed `completion_date` column to the `EventCompletion` constructor,
which raises `TypeError`; `BaseRepository.create` converts that to
`None`, so the repository returns `None` and
`TaskStatusCore.mark_event_undone` returns `False` (the stores are
indeed unchanged and no XP is deducted, and `is_done` stays false, but
the call reports failure, not no-op success). -/
theorem mark_undone_no_record_fails :
    markUndone "T1" 5 CompletionStore.empty = (none, CompletionStore.empty) ∧
    markEventUndone ⟨5, 0⟩ "T1" 5 CompletionStore.empty ⟨0, []⟩ =
      (false, CompletionStore.empty, ⟨0, []⟩) ∧
    isDone "T1" 5 CompletionStore.empty = false :=
  ⟨rfl, rfl, rfl⟩

/-- Claim C9: `mark_event_done` with an empty or whitespace-only
description raises `ValueError("Description is required when marking a
task as done")` before touching the completion store or the XP ledger:
the error propagates (the `raise` precedes the `try` block) and both
stores are returned exactly as given. -/
theorem mark_done_empty_description_raises (now : DateTime) (event_id : String)
    (description : String) (completion_date : Int) (cs : CompletionStore) (xs : XPState)
    (h : pyStrip description = "") :
    markEventDone now event_id description completion_date cs xs =
      (Except.error "Description is required when marking a task as done", cs, xs) := by
  unfold markEventDone
  simp [h]

theorem mark_done_empty_description_raises_witness :
    pyStrip "   " = "" ∧
    markEventDone ⟨0, 0⟩ "E1" "   " 0 CompletionStore.empty ⟨0, []⟩ =
      (Except.error "Description is required when marking a task as done",
       CompletionStore.empty, ⟨0, []⟩) :=
  ⟨by decide,
   mark_done_empty_description_raises ⟨0, 0⟩ "E1" "   " 0 CompletionStore.empty ⟨0, []⟩
     (by decide)⟩

/-- Claim C3: when the last deduction marker is dated today
(`days_since == 0`), the reconciliation entry point returns the
zero-count success dict with the message "Deduction already ran today"
and the state — completions, sessions, XP ledger, and markers — is
returned untouched, so no new marker is written.  This holds whether or
not the calendar collaborator is authenticated, since the gate precedes
the authentication check. -/
theorem reconciliation_second_run_noop (now : DateTime) (today : Int)
    (calendarAuthenticated : Bool) (events : Int → Option (List String)) (st : ReconState)
    (h : st.markers.lastRunDate = some today) :
    deductXpForPendingTasksFromYesterday now today calendarAuthenticated events st =
      ({ success := true, pending_count := 0, deducted_count := 0, total_xp_deducted := 0,
         running_stopped_count := none, running_xp_awarded := none, days_processed := none,
         message := "Deduction already ran today" }, st) := by
  unfold deductXpForPendingTasksFromYesterday
  rw [h]
  simp

theorem reconciliation_second_run_noop_witness :
    (MarkerStore.lastRunDate ⟨[⟨⟨5, 0⟩, 2, 1, 5⟩]⟩ = some 5) ∧
    deductXpForPendingTasksFromYesterday ⟨5, 1000⟩ 5 true (fun _ => some [])
        ⟨CompletionStore.empty, SessionStore.empty, ⟨0, []⟩, ⟨[⟨⟨5, 0⟩, 2, 1, 5⟩]⟩⟩ =
      ({ success := true, pending_count := 0, deducted_count := 0, total_xp_deducted := 0,
         running_stopped_count := none, running_xp_awarded := none, days_processed := none,
         message := "Deduction already ran today" },
       ⟨CompletionStore.empty, SessionStore.empty, ⟨0, []⟩, ⟨[⟨⟨5, 0⟩, 2, 1, 5⟩]⟩⟩) :=
  ⟨by decide,
   reconciliation_second_run_noop ⟨5, 1000⟩ 5 true (fun _ => some [])
     ⟨CompletionStore.empty, SessionStore.empty, ⟨0, []⟩, ⟨[⟨⟨5, 0⟩, 2, 1, 5⟩]⟩⟩ (by decide)⟩

/-- Claim C4, counterexample: `start_session` does not add the elapsed
time to the previously accumulated `duration_seconds` of the running
session it freezes; it overwrites the field with the elapsed time alone.
With a running session for `T1` started at 10:00:00 carrying an
accumulated duration of 100 seconds, starting a new session 10 seconds
later leaves the frozen session with `duration_seconds = 10`, not 110
(unlike `pause_session`, which does add the accumulated duration). -/
theorem start_session_overwrites_duration_counterexample :
    ((startSession ⟨0, 36010000000⟩ "T1"
        ⟨2, [⟨1, "T1", ⟨0, 36000000000⟩, none, some 100, "running"⟩]⟩).2.rows.map
      (fun s => s.duration_seconds) = [some 10, none]) ∧
    some (10 : Int) ≠ some (110 : Int) := by
  exact ⟨by decide, by decide⟩

/-- Claim C4, amended: for every task id with an existing running
session, `start_session` freezes the old session by setting its
`duration_seconds` to the elapsed time `now - start_time` (discarding
any previously accumulated duration — the two coincide for sessions the
repository itself creates, which always begin with no accumulated
duration), sets its `end_time` and `Paused` status, and then creates and
returns a new running session with `start_time = now` and no accumulated
duration. -/
theorem start_session_amended (now : DateTime) (eid : String) (store : SessionStore)
    (s : TaskSession) (h : getRunningSession store eid = some s) :
    (startSession now eid store).1 =
      some ⟨store.nextId, eid, now, none, none, "running"⟩ ∧
    (startSession now eid store).2.nextId = store.nextId + 1 ∧
    (startSession now eid store).2.rows =
      (store.rows.map (fun r =>
        if r.id == s.id then
          { s with duration_seconds := some (elapsedSeconds now s.start_time),
                   end_time := some now, status := "Paused" }
        else r)) ++ [⟨store.nextId, eid, now, none, none, "running"⟩] := by
  unfold startSession
  rw [h]
  exact ⟨rfl, rfl, rfl⟩

theorem start_session_amended_witness :
    getRunningSession ⟨2, [⟨1, "T1", ⟨0, 36000000000⟩, none, some 100, "running"⟩]⟩ "T1" =
      some ⟨1, "T1", ⟨0, 36000000000⟩, none, some 100, "running"⟩ ∧
    (startSession ⟨0, 36010000000⟩ "T1"
        ⟨2, [⟨1, "T1", ⟨0, 36000000000⟩, none, some 100, "running"⟩]⟩).1 =
      some ⟨2, "T1", ⟨0, 36010000000⟩, none, none, "running"⟩ :=
  ⟨by decide,
   (start_session_amended ⟨0, 36010000000⟩ "T1"
     ⟨2, [⟨1, "T1", ⟨0, 36000000000⟩, none, some 100, "running"⟩]⟩
     ⟨1, "T1", ⟨0, 36000000000⟩, none, some 100, "running"⟩ (by decide)).1⟩

/-- Claim C7, counterexample: `get_current_duration` does not return the
frozen duration of a paused session.  Its lookup is
`get_running_session`, which filters on status `running`, so for a task
whose only session is paused with `duration_seconds = 100` it returns
`None`, not 100 (the `Paused` branch in its body is unreachable). -/
theorem current_duration_paused_counterexample :
    getCurrentDuration ⟨0, 40000000000⟩
        ⟨2, [⟨1, "T1", ⟨0, 36000000000⟩, some ⟨0, 36100000000⟩, some 100, "Paused"⟩]⟩
        "T1" = none ∧
    (none : Option Int) ≠ some 100 := by
  exact ⟨by decide, by decide⟩

/-- Claim C7, amended: `get_current_duration` returns
`accumulated + (now - start_time)` (with Python truthiness: a `None` or
zero accumulated duration contributes nothing) when a running session
exists for the task, and `None` otherwise — including when the task has
only paused sessions, since the lookup fetches running sessions only. -/
theorem current_duration_amended (now : DateTime) (store : SessionStore) (eid : String) :
    (getRunningSession store eid = none → getCurrentDuration now store eid = none) ∧
    (∀ s, getRunningSession store eid = some s →
      getCurrentDuration now store eid =
        some (addTruthy (elapsedSeconds now s.start_time) s.duration_seconds)) := by
  constructor
  · intro h
    unfold getCurrentDuration
    rw [h]
  · intro s h
    have hs := getRunningSession_some store eid s h
    unfold getCurrentDuration
    rw [h]
    simp [hs.2.2]

theorem current_duration_amended_witness :
    getRunningSession ⟨2, [⟨1, "T1", ⟨0, 36000000000⟩, none, some 100, "running"⟩]⟩ "T1" =
      some ⟨1, "T1", ⟨0, 36000000000⟩, none, some 100, "running"⟩ ∧
    getCurrentDuration ⟨0, 40000000000⟩
        ⟨2, [⟨1, "T1", ⟨0, 36000000000⟩, none, some 100, "running"⟩]⟩ "T1" =
      some (addTruthy
        (elapsedSeconds ⟨0, 40000000000⟩ (⟨0, 36000000000⟩ : DateTime)) (some 100)) :=
  ⟨by decide,
   (current_duration_amended ⟨0, 40000000000⟩
     ⟨2, [⟨1, "T1", ⟨0, 36000000000⟩, none, some 100, "running"⟩]⟩ "T1").2
     ⟨1, "T1", ⟨0, 36000000000⟩, none, some 100, "running"⟩ (by decide)⟩

/-- Claim C10: during auto-finalize, when pausing a running-to-finalize
task returns `False` (it does not raise), the task is silently dropped
for that day: the state is returned unchanged (no completion record is
created, no XP is awarded, the session store is untouched since a false
pause mutates nothing), the finalized count and awarded XP are zero, and
nothing is appended to the pending list — so no XP is deducted for the
task either; only the exception path re-classifies a task as pending. -/
theorem pause_false_silently_dropped (now : DateTime) (checkDate : Int) (baseId : String)
    (st : ReconState) (h : (pauseSession now baseId st.sessions).1 = false) :
    handleRunningTask now checkDate baseId st = (st, 0, 0, []) := by
  unfold handleRunningTask
  dsimp only
  rw [h, pauseSession_false now baseId st.sessions h]
  simp

theorem pause_false_silently_dropped_witness :
    (pauseSession ⟨1, 0⟩ "T1" SessionStore.empty).1 = false ∧
    handleRunningTask ⟨1, 0⟩ 0 "T1"
        ⟨CompletionStore.empty, SessionStore.empty, ⟨0, []⟩, ⟨[]⟩⟩ =
      (⟨CompletionStore.empty, SessionStore.empty, ⟨0, []⟩, ⟨[]⟩⟩, 0, 0, []) :=
  ⟨by decide,
   pause_false_silently_dropped ⟨1, 0⟩ 0 "T1"
     ⟨CompletionStore.empty, SessionStore.empty, ⟨0, []⟩, ⟨[]⟩⟩ (by decide)⟩

theorem markEventDone_completions (now : DateTime) (eid dsc : String) (d : Int)
    (cs : CompletionStore) (xs : XPState) (h : pyStrip dsc ≠ "") :
    (markEventDone now eid dsc d cs xs).2.1 =
      (markDone eid (some (pyStrip dsc)) d none cs).2 := by
  unfold markEventDone
  dsimp only
  rw [beq_eq_false_iff_ne.mpr h]
  simp only [Bool.false_eq_true, if_false]
  obtain ⟨c, hc, -, -, -, -⟩ := markDone_spec eid (some (pyStrip dsc)) d none cs
  rw [hc]
  by_cases hw : isDone eid d cs = true
  · simp [hw]
  · simp [hw]

theorem markEventDone_xp (now : DateTime) (eid dsc : String) (d : Int)
    (cs : CompletionStore) (xs : XPState) (h : pyStrip dsc ≠ "") :
    (markEventDone now eid dsc d cs xs).2.2 =
      (if isDone eid d cs then xs
       else ⟨xs.total_xp + XP_PER_TASK,
         xs.transactions ++
           [⟨XP_PER_TASK, some eid, "Task completed: " ++ eid,
             xs.total_xp + XP_PER_TASK, now⟩]⟩) := by
  unfold markEventDone
  dsimp only
  rw [beq_eq_false_iff_ne.mpr h]
  simp only [Bool.false_eq_true, if_false]
  obtain ⟨c, hc, -, -, -, -⟩ := markDone_spec eid (some (pyStrip dsc)) d none cs
  rw [hc]
  by_cases hw : isDone eid d cs = true
  · simp [hw]
  · simp only [hw, Bool.false_eq_true, if_false]
    unfold addXp
    dsimp only
    rw [descriptionOr_of_ne _ _ (append_ne_empty "Task completed: " eid (by decide))]

/-- Claim C2: marking the same task done twice on the same day (with
valid, non-blank descriptions) awards the per-task XP at most once: the
second call returns the XP ledger of the first call unchanged (no new
transaction, same total), and when the task was not already done before
the first call, the first call awards exactly the per-task XP, appending
exactly one award transaction. -/
theorem mark_done_twice_awards_once (now1 now2 : DateTime) (event_id d1 d2 : String)
    (completion_date : Int) (cs : CompletionStore) (xs : XPState)
    (h1 : pyStrip d1 ≠ "") (h2 : pyStrip d2 ≠ "") :
    (markEventDone now2 event_id d2 completion_date
        (markEventDone now1 event_id d1 completion_date cs xs).2.1
        (markEventDone now1 event_id d1 completion_date cs xs).2.2).2.2 =
      (markEventDone now1 event_id d1 completion_date cs xs).2.2 ∧
    (isDone event_id completion_date cs = false →
      (markEventDone now1 event_id d1 completion_date cs xs).2.2.total_xp =
        xs.total_xp + XP_PER_TASK ∧
      (markEventDone now1 event_id d1 completion_date cs xs).2.2.transactions =
        xs.transactions ++
          [⟨XP_PER_TASK, some event_id, "Task completed: " ++ event_id,
            xs.total_xp + XP_PER_TASK, now1⟩]) := by
  have hcs1 := markEventDone_completions now1 event_id d1 completion_date cs xs h1
  have hdone : isDone event_id completion_date
      (markEventDone now1 event_id d1 completion_date cs xs).2.1 = true := by
    rw [hcs1]
    exact isDone_markDone event_id (some (pyStrip d1)) completion_date cs
  constructor
  · rw [markEventDone_xp now2 event_id d2 completion_date _ _ h2, hdone]
    simp
  · intro hnot
    rw [markEventDone_xp now1 event_id d1 completion_date cs xs h1, hnot]
    simp

theorem mark_done_twice_awards_once_witness :
    (pyStrip "did it" ≠ "" ∧ pyStrip "again" ≠ "" ∧
      isDone "E" 0 CompletionStore.empty = false) ∧
    (markEventDone ⟨0, 200⟩ "E" "again" 0
        (markEventDone ⟨0, 100⟩ "E" "did it" 0 CompletionStore.empty ⟨0, []⟩).2.1
        (markEventDone ⟨0, 100⟩ "E" "did it" 0 CompletionStore.empty ⟨0, []⟩).2.2).2.2 =
      (markEventDone ⟨0, 100⟩ "E" "did it" 0 CompletionStore.empty ⟨0, []⟩).2.2 ∧
    (markEventDone ⟨0, 100⟩ "E" "did it" 0 CompletionStore.empty ⟨0, []⟩).2.2.total_xp =
      (0 : Int) + XP_PER_TASK :=
  ⟨⟨by decide, by decide, by decide⟩,
   (mark_done_twice_awards_once ⟨0, 100⟩ ⟨0, 200⟩ "E" "did it" "again" 0
     CompletionStore.empty ⟨0, []⟩ (by decide) (by decide)).1,
   ((mark_done_twice_awards_once ⟨0, 100⟩ ⟨0, 200⟩ "E" "did it" "again" 0
     CompletionStore.empty ⟨0, []⟩ (by decide) (by decide)).2 (by decide)).1⟩

/-- Claim C1, counterexample: auto-finalizing task `T1` classified as
running-to-finalize on day 0 (running session started on day 0 at
10:00:00, no completion for day 0, reconciliation running the next day
at noon) creates a completion whose instant is 23:59:58 of day 0
(`86398000000` microseconds into the day: `datetime.max.time()` with
microseconds zeroed is 23:59:59 and the code subtracts one further
second), not 23:59:59 as claimed, and logs the XP award transaction
timestamped at the time the pass runs (`datetime.now()`; `add_xp` is
called without `transaction_created_at`), not at the end-of-day instant
of the check date. -/
theorem autofinalize_instant_counterexample :
    ((handleRunningTask ⟨1, 43200000000⟩ 0 "T1"
        ⟨CompletionStore.empty, ⟨2, [⟨1, "T1", ⟨0, 36000000000⟩, none, none, "running"⟩]⟩,
         ⟨0, []⟩, ⟨[]⟩⟩).1.completions.rows.map (fun c => c.completed_at) =
      [some ⟨0, 86398000000⟩]) ∧
    (86398000000 : Int) ≠ 23 * 3600000000 + 59 * 60000000 + 59 * 1000000 ∧
    ((handleRunningTask ⟨1, 43200000000⟩ 0 "T1"
        ⟨CompletionStore.empty, ⟨2, [⟨1, "T1", ⟨0, 36000000000⟩, none, none, "running"⟩]⟩,
         ⟨0, []⟩, ⟨[]⟩⟩).1.xp.transactions.map (fun t => t.created_at) =
      [⟨1, 43200000000⟩]) ∧
    (⟨1, 43200000000⟩ : DateTime) ≠ ⟨0, 23 * 3600000000 + 59 * 60000000 + 59 * 1000000⟩ := by
  refine ⟨by decide, by decide, by decide, by decide⟩

theorem handleRunningTask_already_done (now : DateTime) (checkDate : Int)
    (baseId : String) (st : ReconState)
    (hp : (pauseSession now baseId st.sessions).1 = true)
    (hw : isDone baseId checkDate st.completions = true) :
    handleRunningTask now checkDate baseId st =
      (ReconState.mk
        (markDone baseId (some "Stopped by system (forgot to stop timer)") checkDate
          (some ⟨checkDate, 86398000000⟩) st.completions).2
        (pauseSession now baseId st.sessions).2
        st.xp st.markers, 1, 0, []) := by
  have hu : (Int.tdiv 86399999999 1000000 * 1000000 - 1000000 : Int) = 86398000000 := by
    decide
  obtain ⟨c, hc, -, -, -, -⟩ :=
    markDone_spec baseId (some "Stopped by system (forgot to stop timer)") checkDate
      (some ⟨checkDate, 86398000000⟩) st.completions
  unfold handleRunningTask
  dsimp only
  rw [hu, hp, hc, hw]
  simp

theorem handleRunningTask_award (now : DateTime) (checkDate : Int)
    (baseId : String) (st : ReconState)
    (hp : (pauseSession now baseId st.sessions).1 = true)
    (hw : isDone baseId checkDate st.completions = false) :
    handleRunningTask now checkDate baseId st =
      (ReconState.mk
        (markDone baseId (some "Stopped by system (forgot to stop timer)") checkDate
          (some ⟨checkDate, 86398000000⟩) st.completions).2
        (pauseSession now baseId st.sessions).2
        ⟨st.xp.total_xp + XP_PER_TASK,
         st.xp.transactions ++
           [⟨XP_PER_TASK, some baseId, "Task completed: " ++ baseId,
             st.xp.total_xp + XP_PER_TASK, now⟩]⟩
        st.markers, 1, XP_PER_TASK, []) := by
  have hu : (Int.tdiv 86399999999 1000000 * 1000000 - 1000000 : Int) = 86398000000 := by
    decide
  obtain ⟨c, hc, -, -, -, -⟩ :=
    markDone_spec baseId (some "Stopped by system (forgot to stop timer)") checkDate
      (some ⟨checkDate, 86398000000⟩) st.completions
  unfold handleRunningTask
  dsimp only
  rw [hu, hp, hc, hw]
  unfold addXp
  dsimp only
  rw [descriptionOr_of_ne _ _ (append_ne_empty "Task completed: " baseId (by decide))]
  simp

/-- Claim C1, amended: for a task on which the pause succeeds during a
reconciliation pass, the engine pauses its session, then creates a done
completion record for `(task, check_date)` with the system-generated
description "Stopped by system (forgot to stop timer)" whose completion
instant is 23:59:58 of `check_date` (end of day minus one second —
still inside `check_date`), and, when that is the first completion of
the task for `check_date`, awards the fixed per-task XP with the
transaction timestamped at the time the pass runs (`now`), not at the
end-of-day instant of `check_date`. -/
theorem autofinalize_amended (now : DateTime) (checkDate : Int) (baseId : String)
    (st : ReconState) (hp : (pauseSession now baseId st.sessions).1 = true) :
    (handleRunningTask now checkDate baseId st).1.sessions =
      (pauseSession now baseId st.sessions).2 ∧
    (handleRunningTask now checkDate baseId st).1.completions =
      (markDone baseId (some "Stopped by system (forgot to stop timer)") checkDate
        (some ⟨checkDate, 86398000000⟩) st.completions).2 ∧
    (∃ c, (markDone baseId (some "Stopped by system (forgot to stop timer)") checkDate
        (some ⟨checkDate, 86398000000⟩) st.completions).1 = some c ∧
      c.event_id = baseId ∧ c.is_done = true ∧
      c.completed_at = some ⟨checkDate, 86398000000⟩ ∧
      c.completion_description = some "Stopped by system (forgot to stop timer)") ∧
    (isDone baseId checkDate st.completions = false →
      (handleRunningTask now checkDate baseId st).1.xp.total_xp =
        st.xp.total_xp + XP_PER_TASK ∧
      (handleRunningTask now checkDate baseId st).1.xp.transactions =
        st.xp.transactions ++
          [⟨XP_PER_TASK, some baseId, "Task completed: " ++ baseId,
            st.xp.total_xp + XP_PER_TASK, now⟩]) ∧
    (isDone baseId checkDate st.completions = true →
      (handleRunningTask now checkDate baseId st).1.xp = st.xp) ∧
    (handleRunningTask now checkDate baseId st).2.1 = 1 := by
  obtain ⟨c, hc, hcid, hcdone, hcat, hcdesc⟩ :=
    markDone_spec baseId (some "Stopped by system (forgot to stop timer)") checkDate
      (some ⟨checkDate, 86398000000⟩) st.completions
  have hcat' : c.completed_at = some ⟨checkDate, 86398000000⟩ := hcat
  cases hw : isDone baseId checkDate st.completions with
  | true =>
    rw [handleRunningTask_already_done now checkDate baseId st hp hw]
    exact ⟨rfl, rfl, ⟨c, hc, hcid, hcdone, hcat', hcdesc⟩,
      fun hcontra => absurd hcontra (by decide), fun _ => rfl, rfl⟩
  | false =>
    rw [handleRunningTask_award now checkDate baseId st hp hw]
    exact ⟨rfl, rfl, ⟨c, hc, hcid, hcdone, hcat', hcdesc⟩,
      fun _ => ⟨rfl, rfl⟩, fun hcontra => absurd hcontra (by decide), rfl⟩

theorem autofinalize_amended_witness :
    ((pauseSession ⟨1, 43200000000⟩ "T1"
        ⟨2, [⟨1, "T1", ⟨0, 36000000000⟩, none, none, "running"⟩]⟩).1 = true ∧
      isDone "T1" 0 CompletionStore.empty = false) ∧
    (handleRunningTask ⟨1, 43200000000⟩ 0 "T1"
        ⟨CompletionStore.empty, ⟨2, [⟨1, "T1", ⟨0, 36000000000⟩, none, none, "running"⟩]⟩,
         ⟨0, []⟩, ⟨[]⟩⟩).1.xp.total_xp = (0 : Int) + XP_PER_TASK :=
  ⟨⟨by decide, by decide⟩,
   ((autofinalize_amended ⟨1, 43200000000⟩ 0 "T1"
     ⟨CompletionStore.empty, ⟨2, [⟨1, "T1", ⟨0, 36000000000⟩, none, none, "running"⟩]⟩,
      ⟨0, []⟩, ⟨[]⟩⟩ (by decide)).2.2.2.1 (by decide)).1⟩

end MindOS
